import Mathlib

/-!
Shallow embedding of `src/main.go` (package `metrics`) of CNaaSProm: the
on-demand fetch → normalize → merge → publish metrics pipeline.

Go maps are modelled as association lists in insertion order.  The network
and JSON decoding are abstracted into an oracle `String → UpstreamResult`
keyed by the full request URL; its constructors record which of the two
JSON shapes the response body decodes into (or that the fetch, read or
decode failed).  `strconv.ParseFloat` is modelled as exact parsing of a
decimal floating-point literal (hexadecimal floats, `Inf`, `NaN` and digit
underscores are outside the model, and the value is kept exactly rather
than rounded to the nearest binary64 — for every value appearing in this
development the truncated integer coincides); Go's `int(f)` conversion is
truncation toward zero.  A Go runtime panic (index out of range on an
empty field list) is modelled by a dedicated outcome constructor, since a
panic in any goroutine aborts the whole process.
-/

namespace CNaaSProm

/-- Read from a Go map keyed by strings (association-list model). -/
def alistLookup {α : Type} : List (String × α) → String → Option α
  | [], _ => none
  | (k, v) :: rest, key => if k = key then some v else alistLookup rest key

/-- Decoded `map[string]int`: metric name to value. -/
abbrev CategoryMetrics := List (String × Int)

/-- The combined data `map[string]map[string]int`: qualified category key
to metrics. -/
abbrev Dataset := List (String × CategoryMetrics)

/-- Go `m[name] += v` on an inner metrics map: a missing key reads as 0. -/
def cmAddVal : CategoryMetrics → String → Int → CategoryMetrics
  | [], name, v => [(name, v)]
  | (n, w) :: rest, name, v =>
    if n = name then (n, w + v) :: rest else (n, w) :: cmAddVal rest name v

/-- Go `_, exists := combinedData[key]`. -/
def dsHasKey : Dataset → String → Bool
  | [], _ => false
  | (k, _) :: rest, key => if k = key then true else dsHasKey rest key

/-- Lines 123-125 and 139-141 of src/main.go: create the inner map for a
qualified key when it is absent. -/
def dsEnsure (d : Dataset) (key : String) : Dataset :=
  if dsHasKey d key then d else d ++ [(key, [])]

/-- Go `combinedData[key][name] += v`.  In the source the entry for `key`
has always been created just before this runs, so the nil-entry case is
unreachable; it is completed here to a fresh singleton entry. -/
def dsAddValIn : Dataset → String → String → Int → Dataset
  | [], key, name, v => [(key, cmAddVal [] name v)]
  | (k, m) :: rest, key, name, v =>
    if k = key then (k, cmAddVal m name v) :: rest
    else (k, m) :: dsAddValIn rest key name v

/-- Go `combinedData[category] = metrics` (lines 219 and 242 of
src/main.go): whole-entry assignment, replacing any existing entry. -/
def dsSetCat : Dataset → String → CategoryMetrics → Dataset
  | [], key, m => [(key, m)]
  | (k, m') :: rest, key, m =>
    if k = key then (k, m) :: rest else (k, m') :: dsSetCat rest key m

/-- The handler's merge loops: assign every entry of `src` into `dst`. -/
def dsAssignAll : Dataset → Dataset → Dataset
  | dst, [] => dst
  | dst, (k, m) :: rest => dsAssignAll (dsSetCat dst k m) rest

/-- Two-level read `combinedData[key][name]`: `none` when the qualified
key or the metric name is absent. -/
def lookup2 (d : Dataset) (key name : String) : Option Int :=
  (alistLookup d key).bind (fun m => alistLookup m name)

/-! ### Value coercion (lines 143-155 of src/main.go) -/

/-- Split a character list at whitespace characters, keeping the (possibly
empty) pieces between them. -/
def splitWs : List Char → List (List Char)
  | [] => [[]]
  | c :: rest =>
    match splitWs rest with
    | [] => [[]]
    | t :: ts => if c.isWhitespace then [] :: t :: ts else (c :: t) :: ts

/-- `strings.Fields`: the maximal runs of non-whitespace characters.
(Go splits on `unicode.IsSpace`; the model covers the ASCII whitespace
characters, which is what the payloads in question contain.) -/
def stringsFields (s : String) : List (List Char) :=
  (splitWs s.toList).filter (fun t => !t.isEmpty)

/-- Numeric value of a digit run, most significant first. -/
def digitsToNat (ds : List Char) : Nat :=
  ds.foldl (fun a c => a * 10 + (c.toNat - 48)) 0

def isDigits (ds : List Char) : Bool :=
  ds.all (fun c => c.isDigit)

/-- Split at the first character satisfying `p`; `none` when there is
none. -/
def splitOnce (p : Char → Bool) : List Char → List Char × Option (List Char)
  | [] => ([], none)
  | c :: rest =>
    if p c then ([], some rest)
    else
      match splitOnce p rest with
      | (a, b) => (c :: a, b)

/-- An optional single leading sign character. -/
def parseSignChar : List Char → Int × List Char
  | '+' :: rest => (1, rest)
  | '-' :: rest => (-1, rest)
  | cs => (1, cs)

/-- The exact value of a decimal floating-point literal:
`sign * num * 10 ^ tenPow`. -/
structure ParsedFloat where
  sign : Int
  num : Nat
  tenPow : Int
deriving DecidableEq

/-- Go `int(f)` on a (finite) float: truncation toward zero.  The
magnitude `num * 10 ^ tenPow` is nonnegative, so truncation is natural
division of the magnitude, with the sign reapplied. -/
def ParsedFloat.toTruncInt (p : ParsedFloat) : Int :=
  if 0 ≤ p.tenPow then p.sign * Int.ofNat (p.num * 10 ^ p.tenPow.toNat)
  else p.sign * Int.ofNat (p.num / 10 ^ (-p.tenPow).toNat)

/-- `strconv.ParseFloat(s, 64)` on decimal literals, kept exact: optional
sign, digits with at most one decimal point (at least one digit), optional
exponent part `e`/`E` with optional sign and at least one digit. -/
def goParseFloat (cs : List Char) : Option ParsedFloat :=
  let (sgn, cs1) := parseSignChar cs
  let (mant, expPart) := splitOnce (fun c => c == 'e' || c == 'E') cs1
  let (ip, fpOpt) := splitOnce (fun c => c == '.') mant
  let fp := fpOpt.getD []
  if ip ++ fp = [] then none
  else if !isDigits (ip ++ fp) then none
  else
    let num := digitsToNat (ip ++ fp)
    let fracLen := fp.length
    match expPart with
    | none => some ⟨sgn, num, -(fracLen : Int)⟩
    | some ecs =>
      let (esgn, eds) := parseSignChar ecs
      if eds = [] then none
      else if !isDigits eds then none
      else some ⟨sgn, num, esgn * Int.ofNat (digitsToNat eds) - fracLen⟩

/-- Outcome of processing one raw monitoring value. -/
inductive CoerceOutcome where
  /-- `strings.Fields(value)[0]` on an empty field list: index out of
  range, a runtime panic. -/
  | panicked
  /-- `strconv.ParseFloat` failed: logged and the metric skipped. -/
  | dropped
  | value (v : Int)
deriving DecidableEq

/-- Lines 143-152 of src/main.go for one raw monitoring value: first
whitespace-separated field, parsed as a float, converted with `int(...)`. -/
def coerceMonitoringValue (raw : String) : CoerceOutcome :=
  match stringsFields raw with
  | [] => .panicked
  | tok :: _ =>
    match goParseFloat tok with
    | none => .dropped
    | some p => .value p.toTruncInt

/-! ### Source fetcher (`fetchJSONData`, lines 42-80 of src/main.go) -/

/-- Decoded statistics body: `map[string]map[string]int`. -/
abbrev StatsPayload := List (String × List (String × Int))

/-- Decoded monitoring body: `map[string]string`. -/
abbrev MonitorPayload := List (String × String)

/-- What one upstream GET produced.  `fetchFailure` covers a transport
error, a non-200 status, a read failure, or a body that does not decode
into the shape the source type expects; the other two constructors say
which of the two JSON shapes the body decodes into. -/
inductive UpstreamResult where
  | fetchFailure (msg : String)
  | statsJson (payload : StatsPayload)
  | monitorJson (payload : MonitorPayload)
deriving DecidableEq

/-- The `interface{}` value `fetchJSONData` returns on success. -/
inductive FetchResult where
  | stats (p : StatsPayload)
  | monitor (p : MonitorPayload)
deriving DecidableEq

/-- `fetchJSONData`: dispatch on the `dataType` tag, decoding the body
into the matching shape.  A body of the other shape fails to unmarshal
into the expected Go map type. -/
def fetchJSONData (dataType : String) (resp : UpstreamResult) : Except String FetchResult :=
  match resp with
  | .fetchFailure msg => .error msg
  | .statsJson p =>
    match dataType with
    | "statistics" => .ok (.stats p)
    | "monitoring" => .error "failed to parse monitoring JSON"
    | _ => .error ("unknown data type: " ++ dataType)
  | .monitorJson p =>
    match dataType with
    | "statistics" => .error "failed to parse statistics JSON"
    | "monitoring" => .ok (.monitor p)
    | _ => .error ("unknown data type: " ++ dataType)

def statsBaseURL (addr : String) (port : Nat) : String :=
  "http://" ++ addr ++ ":" ++ toString port ++ "/nnfcm-statistics/v2/stats"

def monitorBaseURL (addr : String) (port : Nat) : String :=
  "http://" ++ addr ++ ":" ++ toString port ++ "/nnfcm-monitoring/v2"

def categoryURL (base cat queryParams : String) : String :=
  base ++ "/" ++ cat ++ "?operatorIdentifier=" ++ queryParams

/-! ### Aggregator (`fetchAndCombineJSONData`, lines 83-164 of src/main.go) -/

/-- The inner metric loop of the statistics branch (lines 126-128). -/
def processMetrics (key : String) : Dataset → List (String × Int) → Dataset
  | d, [] => d
  | d, (name, v) :: rest => processMetrics key (dsAddValIn d key name v) rest

/-- Lines 121-129: merge one decoded statistics payload under query
category `qc`, qualifying each nested category as `qc_jsonCat`. -/
def processStatsPayload (qc : String) : Dataset → StatsPayload → Dataset
  | d, [] => d
  | d, (jsonCat, ms) :: rest =>
    processStatsPayload qc
      (processMetrics (qc ++ "_" ++ jsonCat) (dsEnsure d (qc ++ "_" ++ jsonCat)) ms) rest

/-- Lines 143-156: merge the pairs of one monitoring payload under the
bare category key.  `none` models the index-out-of-range panic raised by
`strings.Fields(value)[0]` on a value with no fields. -/
def processMonitorPairs (key : String) : Dataset → MonitorPayload → Option Dataset
  | d, [] => some d
  | d, (name, raw) :: rest =>
    match coerceMonitoringValue raw with
    | .panicked => none
    | .dropped => processMonitorPairs key d rest
    | .value v => processMonitorPairs key (dsAddValIn d key name v) rest

/-- Result of one source-type aggregation.  `goError` is a returned
non-nil error; `panicked` is a runtime panic (which in Go aborts the whole
process, it is not a returned error). -/
inductive AggResult where
  | ok (d : Dataset)
  | goError (msg : String)
  | panicked
deriving DecidableEq

/-- The per-category loop of `fetchAndCombineJSONData` (lines 103-161):
fetch, log-and-continue on fetch error, then merge by payload shape. -/
def combineLoop (baseURL queryParams dataType : String)
    (upstream : String → UpstreamResult) : List String → Dataset → AggResult
  | [], d => .ok d
  | cat :: rest, d =>
    match fetchJSONData dataType (upstream (categoryURL baseURL cat queryParams)) with
    | .error _ => combineLoop baseURL queryParams dataType upstream rest d
    | .ok fr =>
      match dataType, fr with
      | "statistics", .stats p =>
        combineLoop baseURL queryParams dataType upstream rest (processStatsPayload cat d p)
      | "statistics", .monitor _ => .goError "unexpected data type for statistics"
      | "monitoring", .monitor p =>
        match processMonitorPairs cat (dsEnsure d cat) p with
        | none => .panicked
        | some d' => combineLoop baseURL queryParams dataType upstream rest d'
      | "monitoring", .stats _ => .goError "unexpected data type for monitoring"
      | _, _ => .goError ("invalid data type: " ++ dataType)

/-- `fetchAndCombineJSONData`: pick the base URL by source type (an
unrecognized type is an immediate error), then run the category loop. -/
def fetchAndCombineJSONData (MetricsCategories : List String)
    (queryParams serverAddr : String) (serverPort : Nat) (dataType : String)
    (upstream : String → UpstreamResult) : AggResult :=
  if dataType = "statistics" then
    combineLoop (statsBaseURL serverAddr serverPort) queryParams dataType upstream
      MetricsCategories []
  else if dataType = "monitoring" then
    combineLoop (monitorBaseURL serverAddr serverPort) queryParams dataType upstream
      MetricsCategories []
  else .goError ("invalid data type: " ++ dataType)

/-! ### Registry publisher (`registerMetricsFromJSON`, lines 166-188) -/

/-- Gauge name to current value. -/
abbrev Registry := List (String × Int)

/-- `metricsRegistry.Register(gauge)` after `gauge.Set(value)`: a fresh
name is added; an `AlreadyRegisteredError` sets the existing gauge to the
new value (last write wins). -/
def registerGauge : Registry → String → Int → Registry
  | [], name, v => [(name, v)]
  | (n, w) :: rest, name, v =>
    if n = name then (n, v) :: rest else (n, w) :: registerGauge rest name v

def registerCatMetrics (category : String) : Registry → List (String × Int) → Registry
  | r, [] => r
  | r, (name, v) :: rest =>
    registerCatMetrics category (registerGauge r (category ++ "_" ++ name) v) rest

/-- `registerMetricsFromJSON`: one gauge named `category_metric` per pair.
The Go function's error return is always nil, so the model returns the
registry alone. -/
def registerMetricsFromJSON : Registry → Dataset → Registry
  | r, [] => r
  | r, (category, ms) :: rest => registerMetricsFromJSON (registerCatMetrics category r ms) rest

/-- The gauge names a dataset registers. -/
def catGaugeNames (category : String) (ms : List (String × Int)) : List String :=
  ms.map (fun nv => category ++ "_" ++ nv.1)

def gaugeNames : Dataset → List String
  | [] => []
  | (category, ms) :: rest => catGaugeNames category ms ++ gaugeNames rest

/-! ### Orchestrator (`MetricsHandler`, lines 191-267 of src/main.go) -/

/-- The arguments `MetricsHandler` closes over. -/
structure HandlerConfig where
  statsCats : List String
  monitorCats : List String
  queryParams : String
  statsAddr : String
  statsPort : Nat
  monAddr : String
  monPort : Nat

/-- Line 205: `len(cats) > 0 && addr != "" && port != 0`. -/
abbrev statsConfigured (cfg : HandlerConfig) : Prop :=
  0 < cfg.statsCats.length ∧ cfg.statsAddr ≠ "" ∧ cfg.statsPort ≠ 0

/-- Line 228, same shape for the monitoring source. -/
abbrev monitorConfigured (cfg : HandlerConfig) : Prop :=
  0 < cfg.monitorCats.length ∧ cfg.monAddr ≠ "" ∧ cfg.monPort ≠ 0

/-- Outcome of building `combinedData` in the handler body. -/
inductive DatasetOutcome where
  | built (d : Dataset)
  /-- A branch sent on `errorChan`: the handler answers 500. -/
  | failed (msg : String)
  /-- A goroutine panicked: the whole process dies. -/
  | crashed
deriving DecidableEq

/-- Lines 201-248: the two branch blocks.  Each `go`/`select` pair awaits
the goroutine it has just launched before the next block starts, so the
data flow is that of sequential composition: statistics first, then
monitoring, each merged by whole-entry assignment into `combinedData`. -/
def scrapeDataset (cfg : HandlerConfig) (up : String → UpstreamResult) : DatasetOutcome :=
  let afterStats : DatasetOutcome :=
    if statsConfigured cfg then
      match fetchAndCombineJSONData cfg.statsCats cfg.queryParams cfg.statsAddr
          cfg.statsPort "statistics" up with
      | .ok d => .built (dsAssignAll [] d)
      | .goError e => .failed ("failed to fetch statistics data: " ++ e)
      | .panicked => .crashed
    else .built []
  match afterStats with
  | .failed e => .failed e
  | .crashed => .crashed
  | .built cmb =>
    if monitorConfigured cfg then
      match fetchAndCombineJSONData cfg.monitorCats cfg.queryParams cfg.monAddr
          cfg.monPort "monitoring" up with
      | .ok d => .built (dsAssignAll cmb d)
      | .goError e => .failed ("failed to fetch monitoring data: " ++ e)
      | .panicked => .crashed
    else .built cmb

/-- The HTTP response of one scrape. -/
inductive ScrapeOutcome where
  /-- Status 200; the body is the text exposition of `reg`. -/
  | exposition (reg : Registry)
  | httpError (status : Nat) (msg : String)
  /-- A panic in a branch goroutine: no response, the process dies. -/
  | crash
deriving DecidableEq

def ScrapeOutcome.status : ScrapeOutcome → Option Nat
  | .exposition _ => some 200
  | .httpError s _ => some s
  | .crash => none

/-- The request body of `MetricsHandler`: build `combinedData`, answer 400
when it is empty, otherwise replace the process-wide registry with a fresh
one, register the dataset and serve it.  The state threaded through is the
package-level `metricsRegistry`. -/
def MetricsHandler (cfg : HandlerConfig) (up : String → UpstreamResult)
    (registry : Registry) : Registry × ScrapeOutcome :=
  match scrapeDataset cfg up with
  | .crashed => (registry, .crash)
  | .failed e => (registry, .httpError 500 e)
  | .built cmb =>
    if cmb.length = 0 then
      (registry, .httpError 400 "No valid configuration provided for statistics or monitoring")
    else
      let newReg := registerMetricsFromJSON [] cmb
      (newReg, .exposition newReg)

/-! ### Auxiliary lemmas -/

theorem combineLoop_stats_ok (base qp : String) (up : String → UpstreamResult) :
    ∀ (cats : List String) (d : Dataset),
      ∃ d', combineLoop base qp "statistics" up cats d = .ok d'
  | [], d => ⟨d, rfl⟩
  | cat :: rest, d => by
    cases h : up (categoryURL base cat qp) with
    | fetchFailure msg =>
      simpa [combineLoop, fetchJSONData, h] using combineLoop_stats_ok base qp up rest d
    | statsJson p =>
      simpa [combineLoop, fetchJSONData, h] using
        combineLoop_stats_ok base qp up rest (processStatsPayload cat d p)
    | monitorJson p =>
      simpa [combineLoop, fetchJSONData, h] using combineLoop_stats_ok base qp up rest d

theorem combineLoop_monitor_ne_goError (base qp : String) (up : String → UpstreamResult) :
    ∀ (cats : List String) (d : Dataset) (msg : String),
      combineLoop base qp "monitoring" up cats d ≠ .goError msg
  | [], _, _ => by simp [combineLoop]
  | cat :: rest, d, msg => by
    cases h : up (categoryURL base cat qp) with
    | fetchFailure m =>
      simpa [combineLoop, fetchJSONData, h] using
        combineLoop_monitor_ne_goError base qp up rest d msg
    | statsJson p =>
      simpa [combineLoop, fetchJSONData, h] using
        combineLoop_monitor_ne_goError base qp up rest d msg
    | monitorJson p =>
      cases hp : processMonitorPairs cat (dsEnsure d cat) p with
      | none => simp [combineLoop, fetchJSONData, h, hp]
      | some d' =>
        simpa [combineLoop, fetchJSONData, h, hp] using
          combineLoop_monitor_ne_goError base qp up rest d' msg

theorem dsAddValIn_ne_nil (d : Dataset) (key name : String) (v : Int) :
    dsAddValIn d key name v ≠ [] := by
  cases d with
  | nil => simp [dsAddValIn]
  | cons kv rest =>
    obtain ⟨k, m⟩ := kv
    simp only [dsAddValIn]
    split <;> simp

theorem dsEnsure_ne_nil (d : Dataset) (key : String) : dsEnsure d key ≠ [] := by
  unfold dsEnsure
  split
  · intro hd
    subst hd
    simp [dsHasKey] at *
  · simp

theorem processMetrics_ne_nil (key : String) (ms : List (String × Int)) (d : Dataset)
    (hd : d ≠ []) : processMetrics key d ms ≠ [] := by
  induction ms generalizing d with
  | nil => simpa [processMetrics] using hd
  | cons nv rest ih =>
    obtain ⟨name, v⟩ := nv
    simp only [processMetrics]
    exact ih _ (dsAddValIn_ne_nil d key name v)

theorem processStatsPayload_ne_nil_of_ne_nil (qc : String) (p : StatsPayload) (d : Dataset)
    (hd : d ≠ []) : processStatsPayload qc d p ≠ [] := by
  induction p generalizing d with
  | nil => simpa [processStatsPayload] using hd
  | cons cm rest ih =>
    obtain ⟨jsonCat, ms⟩ := cm
    simp only [processStatsPayload]
    exact ih _ (processMetrics_ne_nil _ _ _ (dsEnsure_ne_nil d _))

theorem processStatsPayload_ne_nil (qc : String) (p : StatsPayload) (d : Dataset)
    (hp : p ≠ []) : processStatsPayload qc d p ≠ [] := by
  cases p with
  | nil => exact absurd rfl hp
  | cons cm rest =>
    obtain ⟨jsonCat, ms⟩ := cm
    simp only [processStatsPayload]
    exact processStatsPayload_ne_nil_of_ne_nil qc rest _
      (processMetrics_ne_nil _ _ _ (dsEnsure_ne_nil d _))

theorem dsSetCat_ne_nil (d : Dataset) (key : String) (m : CategoryMetrics) :
    dsSetCat d key m ≠ [] := by
  cases d with
  | nil => simp [dsSetCat]
  | cons kv rest =>
    obtain ⟨k, m'⟩ := kv
    simp only [dsSetCat]
    split <;> simp

theorem dsAssignAll_ne_nil (src dst : Dataset) (hd : dst ≠ []) :
    dsAssignAll dst src ≠ [] := by
  induction src generalizing dst with
  | nil => simpa [dsAssignAll] using hd
  | cons kv rest ih =>
    obtain ⟨k, m⟩ := kv
    simp only [dsAssignAll]
    exact ih _ (dsSetCat_ne_nil dst k m)

theorem dsAssignAll_nil_ne_nil (src : Dataset) (hs : src ≠ []) :
    dsAssignAll [] src ≠ [] := by
  cases src with
  | nil => exact absurd rfl hs
  | cons kv rest =>
    obtain ⟨k, m⟩ := kv
    simp only [dsAssignAll]
    exact dsAssignAll_ne_nil rest _ (dsSetCat_ne_nil [] k m)

theorem alistLookup_cmAddVal (name : String) (v : Int) :
    ∀ (m : CategoryMetrics),
      alistLookup (cmAddVal m name v) name = some ((alistLookup m name).getD 0 + v)
  | [] => by simp [cmAddVal, alistLookup]
  | (n, w) :: rest => by
    by_cases h : n = name
    · subst h
      simp [cmAddVal, alistLookup]
    · simp [cmAddVal, alistLookup, h, alistLookup_cmAddVal name v rest]

theorem alistLookup_dsAddValIn_self (key name : String) (v : Int) :
    ∀ (d : Dataset),
      alistLookup (dsAddValIn d key name v) key
        = some (cmAddVal ((alistLookup d key).getD []) name v)
  | [] => by simp [dsAddValIn, alistLookup]
  | (k, m) :: rest => by
    by_cases h : k = key
    · subst h
      simp [dsAddValIn, alistLookup]
    · simp [dsAddValIn, alistLookup, h, alistLookup_dsAddValIn_self key name v rest]

theorem lookup2_dsAddValIn (d : Dataset) (key name : String) (v : Int) :
    lookup2 (dsAddValIn d key name v) key name = some ((lookup2 d key name).getD 0 + v) := by
  cases h : alistLookup d key with
  | none => simp [lookup2, alistLookup_dsAddValIn_self, h, alistLookup_cmAddVal, alistLookup]
  | some m => simp [lookup2, alistLookup_dsAddValIn_self, h, alistLookup_cmAddVal]

theorem alistLookup_eq_none_of_hasKey_false :
    ∀ (d : Dataset) (key : String), dsHasKey d key = false → alistLookup d key = none
  | [], _, _ => rfl
  | (k, m) :: rest, key, h => by
    simp only [dsHasKey] at h
    by_cases hk : k = key
    · simp [hk] at h
    · simp only [alistLookup, if_neg hk]
      exact alistLookup_eq_none_of_hasKey_false rest key (by simpa [hk] using h)

theorem alistLookup_append_self :
    ∀ (d : Dataset) (key : String), alistLookup d key = none →
      alistLookup (d ++ [(key, [])]) key = some []
  | [], key, _ => by simp [alistLookup]
  | (k, m) :: rest, key, h => by
    simp only [alistLookup] at h ⊢
    by_cases hk : k = key
    · simp [hk] at h
    · simp only [if_neg hk] at h ⊢
      exact alistLookup_append_self rest key h

theorem lookup2_dsEnsure (d : Dataset) (key name : String) :
    lookup2 (dsEnsure d key) key name = lookup2 d key name := by
  unfold dsEnsure
  split
  · rfl
  · next h =>
    have h0 : alistLookup d key = none :=
      alistLookup_eq_none_of_hasKey_false d key (by simpa using h)
    simp [lookup2, alistLookup_append_self d key h0, h0, alistLookup]

theorem alistLookup_dsSetCat_self :
    ∀ (d : Dataset) (key : String) (m : CategoryMetrics),
      alistLookup (dsSetCat d key m) key = some m
  | [], key, m => by simp [dsSetCat, alistLookup]
  | (k, m') :: rest, key, m => by
    by_cases hk : k = key
    · simp [dsSetCat, alistLookup, hk]
    · simp [dsSetCat, alistLookup, hk, alistLookup_dsSetCat_self rest key m]

theorem alistLookup_registerGauge (r : Registry) (n name : String) (v : Int)
    (h : name ≠ n) : alistLookup (registerGauge r n v) name = alistLookup r name := by
  induction r with
  | nil => simp [registerGauge, alistLookup, Ne.symm h]
  | cons kv rest ih =>
    obtain ⟨k, w⟩ := kv
    simp only [registerGauge]
    split
    · next hk =>
      subst hk
      simp [alistLookup, Ne.symm h]
    · simp [alistLookup, ih]

theorem alistLookup_registerCatMetrics (category name : String) :
    ∀ (ms : List (String × Int)) (r : Registry), name ∉ catGaugeNames category ms →
      alistLookup (registerCatMetrics category r ms) name = alistLookup r name
  | [], r, _ => by simp [registerCatMetrics]
  | (n, v) :: rest, r, h => by
    simp only [catGaugeNames, List.map_cons, List.mem_cons, not_or] at h
    simp only [registerCatMetrics]
    rw [alistLookup_registerCatMetrics category name rest _
        (by simpa [catGaugeNames] using h.2),
      alistLookup_registerGauge r _ name v h.1]

theorem alistLookup_registerMetricsFromJSON (name : String) :
    ∀ (d : Dataset) (r : Registry), name ∉ gaugeNames d →
      alistLookup (registerMetricsFromJSON r d) name = alistLookup r name
  | [], r, _ => by simp [registerMetricsFromJSON]
  | (category, ms) :: rest, r, h => by
    simp only [gaugeNames, List.mem_append, not_or] at h
    simp only [registerMetricsFromJSON]
    rw [alistLookup_registerMetricsFromJSON name rest _ h.2,
      alistLookup_registerCatMetrics category name ms r h.1]

/-! ### Concrete configurations and oracles used by the claim theorems -/

/-- Statistics category `a` and monitoring category `a_b`: the two
branches produce the same qualified key `a_b`. -/
def c1Cfg : HandlerConfig := ⟨["a"], ["a_b"], "op", "sh", 1, "mh", 2⟩

/-- The statistics URL answers `{"b": {"x": 2}}`; every other URL (the
monitoring one) answers `{"x": "3"}`. -/
def c1Up : String → UpstreamResult := fun url =>
  if url = categoryURL (statsBaseURL "sh" 1) "a" "op" then .statsJson [("b", [("x", 2)])]
  else .monitorJson [("x", "3")]

/-- Category `a` answers `{"c": {"x": 1}}`; category `b` (every other URL)
fails to fetch. -/
def c5Up : String → UpstreamResult := fun url =>
  if url = categoryURL (statsBaseURL "h" 1) "a" "op" then .statsJson [("c", [("x", 1)])]
  else .fetchFailure "boom"

def c7Cfg1 : HandlerConfig := ⟨["q"], [], "op", "h", 1, "", 0⟩

def c7Up1 : String → UpstreamResult := fun _ => .statsJson [("a", [("x", 4)])]

def c7Cfg2 : HandlerConfig := ⟨["q"], [], "op", "h", 1, "", 0⟩

def c7Up2 : String → UpstreamResult := fun _ => .statsJson [("b", [("y", 1)])]

/-! ### The claims -/

/-- C1, counterexample: when the statistics branch (query category `a`,
nested category `b`) and the monitoring branch (category `a_b`) produce
the same qualified key `a_b`, the handler's merge keeps only the
monitoring value 3 — it does not sum it with the statistics value 2 into
5, refuting "summed into the existing entry and never overwrite it" for
keys arising from the two branches together. -/
theorem cross_branch_overwrite_counterexample :
    scrapeDataset c1Cfg c1Up = .built [("a_b", [("x", 3)])] ∧
    scrapeDataset c1Cfg c1Up ≠ .built [("a_b", [("x", 2 + 3)])] := by decide

/-- C1, amended: within a single source-type aggregation, every arising of
a qualified key and metric name is accumulated by `+=` into whatever value
the accumulated dataset already holds under them — summed into the
existing entry, never overwritten.  Universally: (i) the accumulation
primitive of lines 127 and 155; (ii) its statistics lift, a later fetch
contributing `(jsonCat, name, v)` on top of any accumulated dataset `d`;
(iii) its monitoring lift, a later category contributing a value that
coerces to `v` on top of any accumulated dataset `d`.  But (iv) across the
two branches the handler's merge (lines 219 and 242) is whole-entry
assignment: the entry assigned for a key replaces whatever an earlier
branch put under that key, regardless of the previous contents —
overwritten, not summed (the counterexample shows the concrete collision). -/
theorem additive_within_source_overwrite_across_branches :
    (∀ (d : Dataset) (key name : String) (v : Int),
        lookup2 (dsAddValIn d key name v) key name
          = some ((lookup2 d key name).getD 0 + v)) ∧
    (∀ (qc jsonCat name : String) (v : Int) (d : Dataset),
        lookup2 (processStatsPayload qc d [(jsonCat, [(name, v)])])
            (qc ++ "_" ++ jsonCat) name
          = some ((lookup2 d (qc ++ "_" ++ jsonCat) name).getD 0 + v)) ∧
    (∀ (cat name raw : String) (v : Int) (d : Dataset),
        coerceMonitoringValue raw = .value v →
        ∃ d', processMonitorPairs cat (dsEnsure d cat) [(name, raw)] = some d' ∧
          lookup2 d' cat name = some ((lookup2 d cat name).getD 0 + v)) ∧
    (∀ (dst : Dataset) (key : String) (m : CategoryMetrics),
        alistLookup (dsSetCat dst key m) key = some m) := by
  refine ⟨?_, ?_, ?_, ?_⟩
  · intro d key name v
    exact lookup2_dsAddValIn d key name v
  · intro qc jsonCat name v d
    simp only [processStatsPayload, processMetrics]
    rw [lookup2_dsAddValIn, lookup2_dsEnsure]
  · intro cat name raw v d h
    refine ⟨dsAddValIn (dsEnsure d cat) cat name v, ?_, ?_⟩
    · simp [processMonitorPairs, h]
    · rw [lookup2_dsAddValIn, lookup2_dsEnsure]
  · intro dst key m
    exact alistLookup_dsSetCat_self dst key m

/-- C1 witness: a monitoring category colliding with an accumulated entry
`a_b -> {x: 2}` and contributing `"3"` sums to 5 inside one aggregation
(the within-source conjunct's hypothesis discharged at a concrete input). -/
theorem additive_within_source_overwrite_witness :
    coerceMonitoringValue "3" = .value 3 ∧
    (∃ d', processMonitorPairs "a_b" (dsEnsure [("a_b", [("x", 2)])] "a_b") [("x", "3")]
        = some d' ∧ lookup2 d' "a_b" "x" = some 5) := by
  refine ⟨by decide, ?_⟩
  obtain ⟨d', h1, h2⟩ := additive_within_source_overwrite_across_branches.2.2.1
    "a_b" "x" "3" 3 [("a_b", [("x", 2)])] (by decide)
  refine ⟨d', h1, ?_⟩
  rw [h2]
  decide

/-- C2, code bug: a monitoring value whose leading token fails to parse
("abc") is dropped while its sibling is processed, but a value with no
token at all (the empty string) makes `strings.Fields(value)[0]` panic
with an index-out-of-range, aborting the aggregation and crashing the
whole scrape — contradicting "the scrape as a whole never aborts because
of a malformed reading". -/
theorem monitoring_empty_value_aborts :
    fetchAndCombineJSONData ["c"] "op" "h" 1 "monitoring"
      (fun _ => .monitorJson [("a", "abc"), ("b", "7")]) = .ok [("c", [("b", 7)])] ∧
    fetchAndCombineJSONData ["c"] "op" "h" 1 "monitoring"
      (fun _ => .monitorJson [("a", ""), ("b", "7")]) = .panicked ∧
    (MetricsHandler ⟨[], ["c"], "op", "", 0, "h", 1⟩
      (fun _ => .monitorJson [("a", "")]) []).2 = .crash := by decide

/-- C4: value coercion takes the first whitespace-separated token, parses
it as a decimal floating-point number and truncates (toward zero, not
rounding) to an integer: "120 bps" coerces to 120 and "3.9 Mbps" to 3
(not 4); the token of "3.9 Mbps" is "3.9" and it parses to the exact
value 39 * 10 ^ (-1). -/
theorem value_coercion_truncates :
    coerceMonitoringValue "120 bps" = .value 120 ∧
    coerceMonitoringValue "3.9 Mbps" = .value 3 ∧
    coerceMonitoringValue "3.9 Mbps" ≠ .value 4 ∧
    stringsFields "3.9 Mbps" = [['3', '.', '9'], ['M', 'b', 'p', 's']] ∧
    goParseFloat ['3', '.', '9'] = some ⟨1, 39, -1⟩ := by decide

/-- C5: when category `B`'s upstream fetch fails while category `A`'s
succeeds with a non-empty payload, the statistics aggregation over
`[A, B]` equals the aggregation over `[A]` alone (so the combined dataset
contains `A`'s metrics and omits `B`'s), and the scrape responds with
status 200. -/
theorem per_category_failure_tolerated (A B qp addr monAddr : String)
    (port monPort : Nat) (up : String → UpstreamResult) (pa : StatsPayload)
    (msg : String) (r : Registry)
    (haddr : addr ≠ "") (hport : port ≠ 0)
    (hA : up (categoryURL (statsBaseURL addr port) A qp) = .statsJson pa)
    (hB : up (categoryURL (statsBaseURL addr port) B qp) = .fetchFailure msg)
    (hpa : pa ≠ []) :
    fetchAndCombineJSONData [A, B] qp addr port "statistics" up
      = fetchAndCombineJSONData [A] qp addr port "statistics" up ∧
    (MetricsHandler ⟨[A, B], [], qp, addr, port, monAddr, monPort⟩ up r).2.status
      = some 200 := by
  have hagg : fetchAndCombineJSONData [A, B] qp addr port "statistics" up
      = .ok (processStatsPayload A [] pa) := by
    simp [fetchAndCombineJSONData, combineLoop, fetchJSONData, hA, hB]
  have hagg1 : fetchAndCombineJSONData [A] qp addr port "statistics" up
      = .ok (processStatsPayload A [] pa) := by
    simp [fetchAndCombineJSONData, combineLoop, fetchJSONData, hA]
  refine ⟨hagg.trans hagg1.symm, ?_⟩
  have hcfg : statsConfigured ⟨[A, B], [], qp, addr, port, monAddr, monPort⟩ :=
    ⟨by simp, haddr, hport⟩
  have hnotm : ¬ monitorConfigured ⟨[A, B], [], qp, addr, port, monAddr, monPort⟩ := by
    intro hc
    simpa using hc.1
  have hsd : scrapeDataset ⟨[A, B], [], qp, addr, port, monAddr, monPort⟩ up
      = .built (dsAssignAll [] (processStatsPayload A [] pa)) := by
    simp [scrapeDataset, hnotm, hagg]
    rw [if_pos hcfg]
  have hne : dsAssignAll [] (processStatsPayload A [] pa) ≠ [] :=
    dsAssignAll_nil_ne_nil _ (processStatsPayload_ne_nil A pa [] hpa)
  simp [MetricsHandler, hsd, List.length_eq_zero, hne, ScrapeOutcome.status]

/-- C5 witness: a concrete two-category statistics configuration where
category "b" fails upstream. -/
theorem per_category_failure_witness :
    fetchAndCombineJSONData ["a", "b"] "op" "h" 1 "statistics" c5Up
      = fetchAndCombineJSONData ["a"] "op" "h" 1 "statistics" c5Up ∧
    (MetricsHandler ⟨["a", "b"], [], "op", "h", 1, "", 0⟩ c5Up []).2.status = some 200 :=
  per_category_failure_tolerated "a" "b" "op" "h" "" 1 0 c5Up [("c", [("x", 1)])]
    "boom" [] (by decide) (by decide) (by decide) (by decide) (by decide)

/-- C6: when neither source type is configured (both category lists empty)
or every configured branch aggregates to an empty fragment, the scrape
responds 400 with the descriptive no-configuration message (in particular
not 200 with an empty body). -/
theorem no_data_yields_400 (cfg : HandlerConfig) (up : String → UpstreamResult)
    (r : Registry)
    (h : (cfg.statsCats = [] ∧ cfg.monitorCats = []) ∨
      ((statsConfigured cfg →
          fetchAndCombineJSONData cfg.statsCats cfg.queryParams cfg.statsAddr cfg.statsPort
            "statistics" up = .ok []) ∧
        (monitorConfigured cfg →
          fetchAndCombineJSONData cfg.monitorCats cfg.queryParams cfg.monAddr cfg.monPort
            "monitoring" up = .ok []))) :
    (MetricsHandler cfg up r).2
      = .httpError 400 "No valid configuration provided for statistics or monitoring" := by
  have hsd : scrapeDataset cfg up = .built [] := by
    rcases h with ⟨hs, hm⟩ | ⟨hs, hm⟩
    · have h1 : ¬ statsConfigured cfg := fun hc => by
        have h0 := hc.1
        rw [hs] at h0
        simp at h0
      have h2 : ¬ monitorConfigured cfg := fun hc => by
        have h0 := hc.1
        rw [hm] at h0
        simp at h0
      simp [scrapeDataset, h1, h2]
    · by_cases h1 : statsConfigured cfg
      · by_cases h2 : monitorConfigured cfg
        · simp [scrapeDataset, h1, h2, hs h1, hm h2, dsAssignAll]
        · simp [scrapeDataset, h1, h2, hs h1, dsAssignAll]
      · by_cases h2 : monitorConfigured cfg
        · simp [scrapeDataset, h1, h2, hm h2, dsAssignAll]
        · simp [scrapeDataset, h1, h2]
  simp [MetricsHandler, hsd]

/-- C6 witness: the fully unconfigured handler answers 400. -/
theorem no_data_yields_400_witness :
    (MetricsHandler ⟨[], [], "op", "", 0, "", 0⟩ (fun _ => .fetchFailure "x") []).2
      = .httpError 400 "No valid configuration provided for statistics or monitoring" :=
  no_data_yields_400 ⟨[], [], "op", "", 0, "", 0⟩ (fun _ => .fetchFailure "x") []
    (Or.inl ⟨rfl, rfl⟩)

/-- C7: across two sequential scrapes (the second one starting from the
registry the first one left behind), a 200 response of the second scrape
exposes only gauges built from the second scrape's dataset: any gauge name
not generated by that dataset is absent from the response, because the
registry is recreated from empty on every request. -/
theorem registry_rebuilt_per_scrape (cfg1 cfg2 : HandlerConfig)
    (up1 up2 : String → UpstreamResult) (r0 : Registry) (d2 : Dataset)
    (reg2 : Registry) (name : String)
    (hd2 : scrapeDataset cfg2 up2 = .built d2)
    (h2 : (MetricsHandler cfg2 up2 (MetricsHandler cfg1 up1 r0).1).2 = .exposition reg2)
    (hname : name ∉ gaugeNames d2) :
    alistLookup reg2 name = none := by
  rw [MetricsHandler, hd2] at h2
  by_cases hlen : d2.length = 0
  · simp [hlen] at h2
  · simp only [hlen, if_false] at h2
    simp only [ScrapeOutcome.exposition.injEq] at h2
    rw [← h2, alistLookup_registerMetricsFromJSON name d2 [] hname]
    rfl

/-- C7 witness: the first scrape exposes `q_a_x = 4`; the second scrape's
upstream only yields `q_b_y = 1`, and its response no longer contains
`q_a_x`. -/
theorem registry_rebuilt_witness :
    alistLookup [("q_b_y", (1 : Int))] "q_a_x" = none :=
  registry_rebuilt_per_scrape c7Cfg1 c7Cfg2 c7Up1 c7Up2 [] [("q_b", [("y", 1)])]
    [("q_b_y", 1)] "q_a_x" (by decide) (by decide) (by decide)

/-- C8: two statistics fetches (the category list names `Q` twice, the
upstream answering `{A: {x: 2}}` each time) accumulate additively in the
aggregated fragment: `Q_A -> {x: 4}`, not 2. -/
theorem additive_merge_statistics :
    fetchAndCombineJSONData ["Q", "Q"] "op" "h" 1 "statistics"
      (fun _ => .statsJson [("A", [("x", 2)])]) = .ok [("Q_A", [("x", 4)])] := by decide

/-- C9: the aggregator returns a (non-nil) hard error exactly when it is
invoked with an unrecognized source-type value; for the two recognized
source types no upstream behavior — per-category fetch, decode, or
coercion failures included — makes it return an error. -/
theorem agg_hard_error_iff_unknown_type (cats : List String) (qp addr : String)
    (port : Nat) (dt : String) (up : String → UpstreamResult) :
    (∃ msg, fetchAndCombineJSONData cats qp addr port dt up = .goError msg) ↔
      ¬ (dt = "statistics" ∨ dt = "monitoring") := by
  constructor
  · rintro ⟨msg, h⟩ (rfl | rfl)
    · rw [fetchAndCombineJSONData.eq_def, if_pos rfl] at h
      obtain ⟨d', hd⟩ := combineLoop_stats_ok (statsBaseURL addr port) qp up cats []
      rw [hd] at h
      exact AggResult.noConfusion h
    · rw [fetchAndCombineJSONData.eq_def, if_neg (by decide), if_pos rfl] at h
      exact combineLoop_monitor_ne_goError (monitorBaseURL addr port) qp up cats [] msg h
  · intro hdt
    refine ⟨"invalid data type: " ++ dt, ?_⟩
    rw [fetchAndCombineJSONData.eq_def, if_neg (fun hh => hdt (Or.inl hh)),
      if_neg (fun hh => hdt (Or.inr hh))]

/-- C10: whenever the handler responds with an error status, the
process-wide registry it returns is the one it was given — the registry is
replaced only on the success path, after a non-empty dataset was built. -/
theorem error_response_preserves_registry (cfg : HandlerConfig)
    (up : String → UpstreamResult) (r : Registry) (status : Nat) (msg : String)
    (h : (MetricsHandler cfg up r).2 = .httpError status msg) :
    (MetricsHandler cfg up r).1 = r := by
  unfold MetricsHandler at h ⊢
  cases hsd : scrapeDataset cfg up with
  | crashed => simp [hsd] at h
  | failed e => simp [hsd]
  | built cmb =>
    by_cases hlen : cmb.length = 0
    · simp [hsd, hlen]
    · simp [hsd, hlen] at h

/-- C10 witness: a 400 response leaves a previously built registry
untouched. -/
theorem error_response_preserves_registry_witness :
    (MetricsHandler ⟨[], [], "op", "", 0, "", 0⟩ (fun _ => .fetchFailure "x")
      [("old", 1)]).1 = [("old", 1)] :=
  error_response_preserves_registry ⟨[], [], "op", "", 0, "", 0⟩
    (fun _ => .fetchFailure "x") [("old", 1)] 400
    "No valid configuration provided for statistics or monitoring" (by decide)

end CNaaSProm
